import Mathlib

/-!
Verification of the Linear integration module's fault-deduplication engine
(`FaultManager` in `src/faults/manager.ts`) and the webhook signature gate
(`LinearWebhookHandler` in `src/webhooks/handler.ts`, middleware in
`src/webhooks/middleware.ts`), as a shallow embedding in Lean 4.

Conventions of the embedding:
* JS timestamps (`Date.getTime()`, milliseconds) are `Nat`.  The source only
  compares `now - lastSeen > window`; with `Nat` truncated subtraction a
  negative JS difference becomes `0`, and `0 > window` is false exactly as a
  negative number is, so the branch behaviour coincides.
* The JS `Map` backing the fault cache is an association list with the
  `Map.get/set/delete` operations (`mapGet`/`mapSet`/`mapDelete`).
* Host primitives that the source calls but does not define — `crypto`'s md5
  hex digest, `JSON.stringify(·, null, 2)`, `new Date().toISOString()` — are
  bundled in a `JsHost` record of pure functions; they are fixed deterministic
  functions of their input (no process-random salt), which is precisely how
  the source relies on them.
* `async` methods that can `throw` return `Except String α`; the tracker
  gateway (`LinearSDK.createIssue` / `createComment`) is a record of such
  functions supplied per call, so that theorems can quantify over gateway
  success and failure.
-/

/-- One JS `Map<string, FaultRecord>` snapshot: an insertion-ordered
association list. -/
structure FaultRecord where
  hash : String
  issueId : String
  count : Nat
  lastSeen : Nat
  deriving DecidableEq, Repr

/-- The fault cache (`this.faultCache : Map<string, FaultRecord>`). -/
def Cache : Type := List (String × FaultRecord)

instance : DecidableEq Cache := by
  unfold Cache
  infer_instance

/-- JS `Map.prototype.get`. -/
def mapGet : Cache → String → Option FaultRecord
  | [], _ => none
  | (k', v) :: rest, k => if k' = k then some v else mapGet rest k

/-- JS `Map.prototype.set`: replace in place when the key exists, append
otherwise. -/
def mapSet : Cache → String → FaultRecord → Cache
  | [], k, v => [(k, v)]
  | (k', v') :: rest, k, v =>
      if k' = k then (k, v) :: rest else (k', v') :: mapSet rest k v

/-- JS `Map.prototype.delete`. -/
def mapDelete : Cache → String → Cache
  | [], _ => []
  | (k', v') :: rest, k =>
      if k' = k then mapDelete rest k else (k', v') :: mapDelete rest k

/-- JS `x || d` on an optional number: `undefined` and `0` are falsy. -/
def jsOrNat : Option Nat → Nat → Nat
  | none, d => d
  | some n, d => if n = 0 then d else n

/-- JS `x || d` on an optional string: `undefined` and `""` are falsy. -/
def jsOrStr : Option String → String → String
  | none, d => d
  | some s, d => if s = "" then d else s

/-- The `FaultConfig` record as passed to the `FaultManager` constructor. -/
structure FaultConfig where
  accessToken : String
  teamId : String
  labelIds : Option (List String)
  defaultPriority : Option Nat
  appName : Option String
  environment : Option String
  deduplicate : Option Bool
  dedupeWindow : Option Nat

/-- The normalized configuration the constructor stores in `this.config`
(after applying the defaults on lines 62-69 of the source). -/
structure Config where
  teamId : String
  labelIds : Option (List String)
  defaultPriority : Nat
  appName : String
  environment : String
  deduplicate : Bool
  dedupeWindow : Nat

/-- The `FaultManager` constructor's defaulting: `defaultPriority || 2`,
`appName || 'Application'`, `environment || 'production'`,
`deduplicate ?? true`, `dedupeWindow || 3600000`. -/
def normConfig (c : FaultConfig) : Config :=
  { teamId := c.teamId
    labelIds := c.labelIds
    defaultPriority := jsOrNat c.defaultPriority 2
    appName := jsOrStr c.appName "Application"
    environment := jsOrStr c.environment "production"
    deduplicate := c.deduplicate.getD true
    dedupeWindow := jsOrNat c.dedupeWindow 3600000 }

/-- The `FaultReport` input (caller-owned). `context` and `metadata` are opaque
key-value objects; `severity`, typed `'critical'|'error'|'warning'` at the TS
level, is embedded as an arbitrary optional string because `getPriority`
accepts `severity?: string`. -/
structure FaultReport where
  message : String
  stack : Option String
  context : Option (List (String × String))
  severity : Option String
  userId : Option String
  url : Option String
  metadata : Option (List (String × String))

/-- Host primitives the source calls: `crypto`'s md5 hex digest,
`JSON.stringify(obj, null, 2)`, and `new Date().toISOString()` at the time of
the call.  Each is a fixed pure function. -/
structure JsHost where
  md5hex : String → String
  jsonStringify : List (String × String) → String
  isoNow : String

/-- JS `s.split('\n')[0]`: the characters before the first newline (the whole
string when it has none; `""` splits to `[""]`, whose head is `""`). -/
def firstLineStr (s : String) : String :=
  ⟨s.data.takeWhile (fun c => c ≠ '\n')⟩

/-- The first line of the stack: `report.stack?.split('\n')[0] || ''`. -/
def firstStackLine : Option String → String
  | none => ""
  | some s => jsOrStr (some (firstLineStr s)) ""

/-- Embedding of `generateFaultHash` (manager.ts lines 83-86): md5 hex digest of
`` `${report.message}:${report.stack?.split('\n')[0] || ''}` ``. -/
def generateFaultHash (md5hex : String → String) (r : FaultReport) : String :=
  md5hex (r.message ++ ":" ++ firstStackLine r.stack)

/-- Embedding of `checkDuplicate` (manager.ts lines 91-104): look the hash up; a stale
record (`now - lastSeen > dedupeWindow`) is deleted and reported missing. -/
def checkDuplicate (cfg : Config) (cache : Cache) (hash : String) (now : Nat) :
    Option FaultRecord × Cache :=
  match mapGet cache hash with
  | none => (none, cache)
  | some record =>
      if now - record.lastSeen > cfg.dedupeWindow then
        (none, mapDelete cache hash)
      else
        (some record, cache)

/-- Embedding of `getPriority` (manager.ts lines 153-164). -/
def getPriority (cfg : Config) (severity : Option String) : Nat :=
  if severity = some "critical" then 1
  else if severity = some "error" then 2
  else if severity = some "warning" then 3
  else cfg.defaultPriority

/-- JS truthiness of an optional string (`undefined` and `""` are falsy). -/
def jsTruthyStr : Option String → Bool
  | none => false
  | some s => !(s == "")

/-- Truthiness of an optional object together with `Object.keys(o).length > 0`. -/
def hasEntries : Option (List (String × String)) → Bool
  | none => false
  | some kvs => 0 < kvs.length

/-- Embedding of `formatDescription` (manager.ts lines 109-148): the markdown body, built
as a list of sections joined with newlines. -/
def formatDescription (host : JsHost) (cfg : Config) (r : FaultReport) :
    String :=
  let sections : List String :=
    ["## Error Details",
     "**Message:** " ++ r.message,
     "**Severity:** " ++ jsOrStr r.severity "error",
     "**Environment:** " ++ cfg.environment,
     "**Timestamp:** " ++ host.isoNow]
    ++ (if jsTruthyStr r.url then ["**URL:** " ++ r.url.getD ""] else [])
    ++ (if jsTruthyStr r.userId then ["**User ID:** " ++ r.userId.getD ""] else [])
    ++ (if jsTruthyStr r.stack then
          ["\n## Stack Trace", "```", r.stack.getD "", "```"] else [])
    ++ (if hasEntries r.context then
          ["\n## Context", "```json",
           host.jsonStringify (r.context.getD []), "```"] else [])
    ++ (if hasEntries r.metadata then
          ["\n## Metadata", "```json",
           host.jsonStringify (r.metadata.getD []), "```"] else [])
  String.intercalate "\n" sections

/-- The ticket-creation input (`IssueCreateInput`). -/
structure IssueCreateInput where
  title : String
  description : String
  teamId : String
  priority : Nat
  labelIds : Option (List String)
  deriving DecidableEq

/-- The created issue the SDK hands back (`await issue.issue`). -/
structure CreatedIssue where
  id : String
  identifier : String
  url : String
  deriving DecidableEq, Repr

/-- The tracker gateway (`LinearSDK`): `createIssue` resolves to the created
entity, to nothing (`issue.issue` undefined — the defensive check's case), or
rejects; `createComment` takes the issue id and body and can reject. -/
structure Gateway where
  createIssue : IssueCreateInput → Except String (Option CreatedIssue)
  createComment : String → String → Except String Unit

/-- The result envelope `report` resolves with. -/
structure ReportResult where
  issueId : String
  identifier : String
  url : String
  isDuplicate : Bool
  deriving DecidableEq, Repr

/-- The ticket title (manager.ts line 202):
`` `[${appName}] ${severity?.toUpperCase() || 'ERROR'}: ${message.slice(0, 100)}` ``. -/
def buildTitle (cfg : Config) (r : FaultReport) : String :=
  "[" ++ cfg.appName ++ "] "
    ++ (match r.severity with
        | none => "ERROR"
        | some s => jsOrStr (some s.toUpper) "ERROR")
    ++ ": " ++ (r.message.take 100)

/-- The `issueInput` record (manager.ts lines 205-211). -/
def buildIssueInput (host : JsHost) (cfg : Config) (r : FaultReport) :
    IssueCreateInput :=
  { title := buildTitle cfg r
    description := formatDescription host cfg r
    teamId := cfg.teamId
    priority := getPriority cfg r.severity
    labelIds := cfg.labelIds }

/-- The duplicate-path comment body (manager.ts line 186), with the count
already incremented. -/
def commentBody (host : JsHost) (count : Nat) : String :=
  "This error occurred again at " ++ host.isoNow
    ++ ". Total occurrences: " ++ toString count

/-- The fresh-ticket path (manager.ts lines 201-240): create the issue; a
rejected call or a missing created entity propagates as an error and leaves
the cache as it was; on success the record is cached and the envelope built
from the created issue. -/
def createFresh (host : JsHost) (cfg : Config) (gw : Gateway) (now : Nat)
    (cache : Cache) (r : FaultReport) (hash : String) :
    Except String ReportResult × Cache :=
  match gw.createIssue (buildIssueInput host cfg r) with
  | Except.error e => (Except.error e, cache)
  | Except.ok none => (Except.error "Issue creation returned no issue", cache)
  | Except.ok (some created) =>
      (Except.ok
        { issueId := created.id
          identifier := created.identifier
          url := created.url
          isDuplicate := false },
       mapSet cache hash
         { hash := hash, issueId := created.id, count := 1, lastSeen := now })

/-- Embedding of `report` (manager.ts lines 169-241).  One invocation: hash, optional
duplicate check, then duplicate path (comment attempt whose failure is only
logged) or fresh path.  Returns the settled promise and the cache that
`this.faultCache` holds afterwards. -/
def report (host : JsHost) (cfg : Config) (gw : Gateway) (now : Nat)
    (cache : Cache) (r : FaultReport) : Except String ReportResult × Cache :=
  let hash := generateFaultHash host.md5hex r
  if cfg.deduplicate then
    match checkDuplicate cfg cache hash now with
    | (some existing, cache') =>
        let updated : FaultRecord :=
          { existing with count := existing.count + 1, lastSeen := now }
        let cache'' := mapSet cache' hash updated
        let envelope : ReportResult :=
          { issueId := existing.issueId
            identifier := "duplicate"
            url := "https://linear.app/issue/" ++ existing.issueId
            isDuplicate := true }
        match gw.createComment existing.issueId (commentBody host updated.count) with
        | Except.ok _ => (Except.ok envelope, cache'')
        | Except.error _ => (Except.ok envelope, cache'')
    | (none, cache') => createFresh host cfg gw now cache' r hash
  else
    createFresh host cfg gw now cache r hash

/-- A sequence of `report` invocations on one manager: each event supplies
the gateway behaviour and clock for that call; the cache threads through. -/
def runReports (host : JsHost) (cfg : Config) :
    List (Gateway × Nat × FaultReport) → Cache →
    List (Except String ReportResult) × Cache
  | [], cache => ([], cache)
  | (gw, now, r) :: rest, cache =>
      let step := report host cfg gw now cache r
      let remaining := runReports host cfg rest step.2
      (step.1 :: remaining.1, remaining.2)

/-- UTF-8 encoding of one character, as a list of byte values. -/
def utf8EncodeCharNat (c : Char) : List Nat :=
  let n := c.toNat
  if n < 0x80 then [n]
  else if n < 0x800 then
    [0xC0 ||| (n >>> 6), 0x80 ||| (n &&& 0x3F)]
  else if n < 0x10000 then
    [0xE0 ||| (n >>> 12), 0x80 ||| ((n >>> 6) &&& 0x3F), 0x80 ||| (n &&& 0x3F)]
  else
    [0xF0 ||| (n >>> 18), 0x80 ||| ((n >>> 12) &&& 0x3F),
     0x80 ||| ((n >>> 6) &&& 0x3F), 0x80 ||| (n &&& 0x3F)]

/-- UTF-8 bytes of a string, as `Buffer.from(s)` produces them. -/
def utf8Bytes (s : String) : List Nat :=
  s.data.flatMap utf8EncodeCharNat

/-- Node's `crypto.timingSafeEqual`: throws a `RangeError` when the buffers
have different byte lengths, otherwise compares them. -/
def timingSafeEqual (a b : List Nat) : Except String Bool :=
  if a.length = b.length then Except.ok (decide (a = b))
  else Except.error "Input buffers must have the same byte length"

/-- Embedding of `verifySignature` (handler.ts lines 44-59): with no signing secret it
returns `true` (after a warning log); otherwise it compares the UTF-8 bytes
of the given signature with those of the 64-character hex HMAC-SHA256 digest
via `timingSafeEqual`.  `hmacHex secret payload` embeds
`crypto.createHmac('sha256', secret).update(payload).digest('hex')`. -/
def verifySignature (hmacHex : String → String → String)
    (signingSecret : Option String) (payload signature : String) :
    Except String Bool :=
  match signingSecret with
  | none => Except.ok true
  | some secret =>
      timingSafeEqual (utf8Bytes signature) (utf8Bytes (hmacHex secret payload))

/-- The incoming webhook payload fields `process` reads. -/
structure WebhookPayload where
  type : String
  action : String
  createdAt : String
  organizationId : String
  deriving DecidableEq

/-- The event `process` builds and dispatches to the handlers. -/
structure WebhookEvent where
  type : String
  action : String
  timestamp : String
  organizationId : String
  deriving DecidableEq

/-- Embedding of `process` (handler.ts lines 82-115) up to handler dispatch: the guard
`if (signature && !this.verifySignature(JSON.stringify(payload), signature))`
throws `Invalid webhook signature` on a `false` verdict and propagates any
exception `verifySignature` itself throws; a missing — or empty, hence falsy —
signature skips verification.  `payloadJson` stands for
`JSON.stringify(payload)`.  On success the built event is returned (its
dispatch to registered handlers swallows per-handler errors and is not
modelled here; no claim depends on it). -/
def process (hmacHex : String → String → String) (signingSecret : Option String)
    (payload : WebhookPayload) (payloadJson : String)
    (signature : Option String) : Except String WebhookEvent :=
  let event : WebhookEvent :=
    { type := payload.type
      action := payload.action
      timestamp := payload.createdAt
      organizationId := payload.organizationId }
  match signature with
  | none => Except.ok event
  | some sig =>
      if sig = "" then Except.ok event
      else
        match verifySignature hmacHex signingSecret payloadJson sig with
        | Except.error e => Except.error e
        | Except.ok true => Except.ok event
        | Except.ok false => Except.error "Invalid webhook signature"

/-- Embedding of `createWebhookMiddleware` (middleware.ts lines 24-42): the HTTP status the
middleware answers with for a given `process` outcome — 200 on success, 401
only for the recognizable `Invalid webhook signature` message, 500 otherwise. -/
def middlewareStatus (outcome : Except String WebhookEvent) : Nat :=
  match outcome with
  | Except.ok _ => 200
  | Except.error e => if e = "Invalid webhook signature" then 401 else 500

/-- A sample host for concrete runs: the md5 digest is embedded as the
identity on the hashed content (any fixed function works for the theorems;
the identity keeps concrete evaluation readable). -/
def host0 : JsHost :=
  { md5hex := fun s => s
    jsonStringify := fun _ => ""
    isoNow := "2025-01-01T00:00:00.000Z" }

/-- A sample report; its content string is `boom:Error: boom`. -/
def rep0 : FaultReport :=
  { message := "boom", stack := some "Error: boom\n  at a.js:1:1"
    context := none, severity := none, userId := none, url := none
    metadata := none }

/-- Same message and same first stack line as `rep0`, everything else
different. -/
def rep1 : FaultReport :=
  { message := "boom", stack := some "Error: boom\n  at other.js:2:2"
    context := some [("request", "r-42")], severity := some "critical"
    userId := some "u-7", url := some "https://example.test/x"
    metadata := some [("build", "v2")] }

/-- A sample normalized configuration with dedup on and a 60 s window. -/
def cfgD : Config :=
  { teamId := "team-1", labelIds := none, defaultPriority := 2
    appName := "Application", environment := "production"
    deduplicate := true, dedupeWindow := 60000 }

/-- The config `cfgD` with deduplication disabled. -/
def cfgN : Config := { cfgD with deduplicate := false }

/-- A cached record for `rep0`'s fingerprint, last seen at time 0. -/
def rec0 : FaultRecord :=
  { hash := "boom:Error: boom", issueId := "ISS-1", count := 1, lastSeen := 0 }

/-- A cache holding exactly `rec0`. -/
def cache0 : Cache := [("boom:Error: boom", rec0)]

/-- A sample created issue. -/
def issue1 : CreatedIssue :=
  { id := "NEW-1", identifier := "APP-1", url := "https://linear.app/issue/NEW-1" }

/-- A gateway on which every call succeeds. -/
def gwOk : Gateway :=
  { createIssue := fun _ => Except.ok (some issue1)
    createComment := fun _ _ => Except.ok () }

/-- A gateway whose comment-append call always rejects. -/
def gwCommentFail : Gateway :=
  { createIssue := fun _ => Except.ok (some issue1)
    createComment := fun _ _ => Except.error "comment failed" }

/-- A gateway whose issue creation always rejects. -/
def gwDown : Gateway :=
  { createIssue := fun _ => Except.error "network down"
    createComment := fun _ _ => Except.ok () }

/-- A sample HMAC digest function: constant 64-character hex output, the
shape `crypto.createHmac('sha256', ·).digest('hex')` always has. -/
def hmac0 : String → String → String :=
  fun _ _ => "0123456789abcdef0123456789abcdef0123456789abcdef0123456789abcdef"

/-- A sample webhook payload. -/
def payload0 : WebhookPayload :=
  { type := "Issue", action := "create"
    createdAt := "2025-01-01T00:00:00.000Z", organizationId := "org-1" }

/-- A raw `FaultConfig` that sets only the required fields. -/
def faultCfg0 : FaultConfig :=
  { accessToken := "tok", teamId := "team-1", labelIds := none
    defaultPriority := none, appName := none, environment := none
    deduplicate := none, dedupeWindow := none }

theorem checkDuplicate_of_get_none (cfg : Config) (cache : Cache)
    (hash : String) (now : Nat) (h : mapGet cache hash = none) :
    checkDuplicate cfg cache hash now = (none, cache) := by
  simp [checkDuplicate, h]

theorem checkDuplicate_live (cfg : Config) (cache : Cache) (hash : String)
    (now : Nat) (rec : FaultRecord) (h : mapGet cache hash = some rec)
    (hl : now - rec.lastSeen ≤ cfg.dedupeWindow) :
    checkDuplicate cfg cache hash now = (some rec, cache) := by
  simp only [checkDuplicate, h]
  rw [if_neg (by omega)]

theorem checkDuplicate_stale (cfg : Config) (cache : Cache) (hash : String)
    (now : Nat) (rec : FaultRecord) (h : mapGet cache hash = some rec)
    (hs : now - rec.lastSeen > cfg.dedupeWindow) :
    checkDuplicate cfg cache hash now = (none, mapDelete cache hash) := by
  simp only [checkDuplicate, h]
  rw [if_pos hs]

theorem report_dup_hit (host : JsHost) (cfg : Config) (gw : Gateway)
    (now : Nat) (cache cache' : Cache) (r : FaultReport) (ex : FaultRecord)
    (hd : cfg.deduplicate = true)
    (hhit : checkDuplicate cfg cache (generateFaultHash host.md5hex r) now
      = (some ex, cache')) :
    report host cfg gw now cache r =
      (Except.ok
        { issueId := ex.issueId
          identifier := "duplicate"
          url := "https://linear.app/issue/" ++ ex.issueId
          isDuplicate := true },
       mapSet cache' (generateFaultHash host.md5hex r)
         { ex with count := ex.count + 1, lastSeen := now }) := by
  simp only [report, hd, if_true, hhit]
  cases gw.createComment ex.issueId (commentBody host (ex.count + 1)) <;> rfl

theorem report_dup_miss (host : JsHost) (cfg : Config) (gw : Gateway)
    (now : Nat) (cache cache' : Cache) (r : FaultReport)
    (hd : cfg.deduplicate = true)
    (hmiss : checkDuplicate cfg cache (generateFaultHash host.md5hex r) now
      = (none, cache')) :
    report host cfg gw now cache r =
      createFresh host cfg gw now cache' r (generateFaultHash host.md5hex r) := by
  simp only [report, hd, if_true, hmiss]

theorem report_no_dedup (host : JsHost) (cfg : Config) (gw : Gateway)
    (now : Nat) (cache : Cache) (r : FaultReport)
    (hd : cfg.deduplicate = false) :
    report host cfg gw now cache r =
      createFresh host cfg gw now cache r (generateFaultHash host.md5hex r) := by
  simp only [report, hd, Bool.false_eq_true, if_false]

theorem createFresh_ok (host : JsHost) (cfg : Config) (gw : Gateway)
    (now : Nat) (cache : Cache) (r : FaultReport) (hash : String)
    (created : CreatedIssue)
    (hc : gw.createIssue (buildIssueInput host cfg r)
      = Except.ok (some created)) :
    createFresh host cfg gw now cache r hash =
      (Except.ok
        { issueId := created.id
          identifier := created.identifier
          url := created.url
          isDuplicate := false },
       mapSet cache hash
         { hash := hash, issueId := created.id, count := 1, lastSeen := now }) := by
  simp only [createFresh, hc]

theorem createFresh_err (host : JsHost) (cfg : Config) (gw : Gateway)
    (now : Nat) (cache : Cache) (r : FaultReport) (hash : String) (e : String)
    (hc : gw.createIssue (buildIssueInput host cfg r) = Except.error e) :
    createFresh host cfg gw now cache r hash = (Except.error e, cache) := by
  simp only [createFresh, hc]

theorem createFresh_none (host : JsHost) (cfg : Config) (gw : Gateway)
    (now : Nat) (cache : Cache) (r : FaultReport) (hash : String)
    (hc : gw.createIssue (buildIssueInput host cfg r) = Except.ok none) :
    createFresh host cfg gw now cache r hash =
      (Except.error "Issue creation returned no issue", cache) := by
  simp only [createFresh, hc]

theorem mapGet_mapSet_self (m : Cache) (k : String) (v : FaultRecord) :
    mapGet (mapSet m k v) k = some v := by
  induction m with
  | nil => simp [mapGet, mapSet]
  | cons hd tl ih =>
      obtain ⟨k', v'⟩ := hd
      by_cases h : k' = k <;> simp [mapGet, mapSet, h, ih]

theorem mapGet_mapSet_ne (m : Cache) (k k' : String) (v : FaultRecord)
    (h : k' ≠ k) : mapGet (mapSet m k v) k' = mapGet m k' := by
  induction m with
  | nil => simp [mapGet, mapSet, Ne.symm h]
  | cons hd tl ih =>
      obtain ⟨k₀, v₀⟩ := hd
      by_cases hk : k₀ = k
      · subst hk
        simp [mapGet, mapSet, Ne.symm h]
      · by_cases hk' : k₀ = k' <;> simp [mapGet, mapSet, hk, hk', h, ih]

theorem mapGet_mapDelete_self (m : Cache) (k : String) :
    mapGet (mapDelete m k) k = none := by
  induction m with
  | nil => simp [mapGet, mapDelete]
  | cons hd tl ih =>
      obtain ⟨k₀, v₀⟩ := hd
      by_cases hk : k₀ = k <;> simp [mapGet, mapDelete, hk, ih]

theorem mapGet_mapDelete_ne (m : Cache) (k k' : String) (h : k' ≠ k) :
    mapGet (mapDelete m k) k' = mapGet m k' := by
  induction m with
  | nil => simp [mapDelete]
  | cons hd tl ih =>
      obtain ⟨k₀, v₀⟩ := hd
      by_cases hk : k₀ = k
      · subst hk
        simp [mapGet, mapDelete, Ne.symm h, ih]
      · by_cases hk' : k₀ = k' <;> simp [mapGet, mapDelete, hk, hk', h, ih]

theorem checkDuplicate_snd_cases (cfg : Config) (cache : Cache)
    (hash : String) (now : Nat) :
    (checkDuplicate cfg cache hash now).2 = cache ∨
    (checkDuplicate cfg cache hash now).2 = mapDelete cache hash := by
  cases hg : mapGet cache hash with
  | none =>
      rw [checkDuplicate_of_get_none cfg cache hash now hg]
      exact Or.inl rfl
  | some rec =>
      by_cases h : now - rec.lastSeen > cfg.dedupeWindow
      · rw [checkDuplicate_stale cfg cache hash now rec hg h]
        exact Or.inr rfl
      · rw [checkDuplicate_live cfg cache hash now rec hg (by omega)]
        exact Or.inl rfl

theorem mapGet_checkDuplicate_snd_ne (cfg : Config) (cache : Cache)
    (hash : String) (now : Nat) (k : String) (hk : k ≠ hash) :
    mapGet (checkDuplicate cfg cache hash now).2 k = mapGet cache k := by
  rcases checkDuplicate_snd_cases cfg cache hash now with h | h <;> rw [h]
  exact mapGet_mapDelete_ne cache hash k hk

theorem createFresh_fst_cache_indep (host : JsHost) (cfg : Config)
    (gw : Gateway) (now : Nat) (cache cache' : Cache) (r : FaultReport)
    (hash : String) :
    (createFresh host cfg gw now cache r hash).1
      = (createFresh host cfg gw now cache' r hash).1 := by
  unfold createFresh
  cases gw.createIssue (buildIssueInput host cfg r) with
  | error e => rfl
  | ok o => cases o <;> rfl

theorem report_fst_no_dedup_cache_indep (host : JsHost) (cfg : Config)
    (gw : Gateway) (now : Nat) (cache cache' : Cache) (r : FaultReport)
    (hd : cfg.deduplicate = false) :
    (report host cfg gw now cache r).1 = (report host cfg gw now cache' r).1 := by
  rw [report_no_dedup host cfg gw now cache r hd,
    report_no_dedup host cfg gw now cache' r hd]
  exact createFresh_fst_cache_indep host cfg gw now cache cache' r _

theorem runReports_fst_no_dedup_cache_indep (host : JsHost) (cfg : Config)
    (events : List (Gateway × Nat × FaultReport)) (cache cache' : Cache)
    (hd : cfg.deduplicate = false) :
    (runReports host cfg events cache).1 = (runReports host cfg events cache').1 := by
  induction events generalizing cache cache' with
  | nil => rfl
  | cons ev rest ih =>
      obtain ⟨gw, now, r⟩ := ev
      simp only [runReports]
      rw [report_fst_no_dedup_cache_indep host cfg gw now cache cache' r hd,
        ih _ _]

theorem runReports_all_fresh (host : JsHost) (cfg : Config)
    (events : List (Gateway × Nat × FaultReport)) (cache : Cache)
    (hd : cfg.deduplicate = false)
    (hgw : ∀ e ∈ events, ∀ inp, ∃ cr, e.1.createIssue inp = Except.ok (some cr)) :
    ∀ res ∈ (runReports host cfg events cache).1,
      ∃ env : ReportResult, res = Except.ok env ∧ env.isDuplicate = false := by
  induction events generalizing cache with
  | nil => simp [runReports]
  | cons ev rest ih =>
      obtain ⟨gw, now, r⟩ := ev
      intro res hres
      simp only [runReports, List.mem_cons] at hres
      rcases hres with h | h
      · obtain ⟨cr, hcr⟩ := hgw (gw, now, r) (List.mem_cons_self _ _) (buildIssueInput host cfg r)
        subst h
        rw [report_no_dedup host cfg gw now cache r hd,
          createFresh_ok host cfg gw now cache r _ cr hcr]
        exact ⟨_, rfl, rfl⟩
      · exact ih _ (fun e he inp => hgw e (List.mem_cons_of_mem _ he) inp) res h

/-- C2: the fingerprint is pure and deterministic.  For any fixed md5 digest
function, two reports with equal `message` and equal first stack line (in
particular when the stack is absent in both) get equal fingerprints, no
matter how `context`, `metadata`, `severity`, `userId` or `url` differ; and
the value is exactly the digest of the `(message, firstStackLine)` pair — no
process-random salt enters. -/
theorem fingerprint_deterministic (md5hex : String → String)
    (r1 r2 : FaultReport) (hm : r1.message = r2.message)
    (hs : firstStackLine r1.stack = firstStackLine r2.stack) :
    generateFaultHash md5hex r1 = generateFaultHash md5hex r2 ∧
    generateFaultHash md5hex r1
      = md5hex (r1.message ++ ":" ++ firstStackLine r1.stack) :=
  ⟨by rw [generateFaultHash, generateFaultHash, hm, hs], rfl⟩

theorem fingerprint_deterministic_witness :
    rep0.message = rep1.message ∧
    firstStackLine rep0.stack = firstStackLine rep1.stack ∧
    rep0.severity ≠ rep1.severity ∧ rep0.context ≠ rep1.context ∧
    generateFaultHash host0.md5hex rep0 = generateFaultHash host0.md5hex rep1 :=
  ⟨rfl, by decide, by decide, by decide,
    (fingerprint_deterministic host0.md5hex rep0 rep1 rfl (by decide)).1⟩

/-- C6: the severity-to-priority mapper is total and never fails:
`critical ↦ 1`, `error ↦ 2`, `warning ↦ 3`, any other or absent severity maps
to the configured default, and the constructor defaults that to 2 when it is
not overridden. -/
theorem priority_mapping_total :
    (∀ cfg : Config, getPriority cfg (some "critical") = 1 ∧
      getPriority cfg (some "error") = 2 ∧ getPriority cfg (some "warning") = 3) ∧
    (∀ (cfg : Config) (s : Option String), s ≠ some "critical" →
      s ≠ some "error" → s ≠ some "warning" →
      getPriority cfg s = cfg.defaultPriority) ∧
    (∀ c : FaultConfig, c.defaultPriority = none →
      (normConfig c).defaultPriority = 2) := by
  refine ⟨fun cfg => ⟨rfl, rfl, rfl⟩, fun cfg s h1 h2 h3 => ?_, fun c h => ?_⟩
  · simp [getPriority, h1, h2, h3]
  · simp [normConfig, jsOrNat, h]

theorem priority_mapping_total_witness :
    getPriority cfgD (some "critical") = 1 ∧
    (some "fatal" ≠ some "critical" ∧
      getPriority cfgD (some "fatal") = cfgD.defaultPriority) ∧
    (faultCfg0.defaultPriority = none ∧ (normConfig faultCfg0).defaultPriority = 2) :=
  ⟨(priority_mapping_total.1 cfgD).1,
   ⟨by decide,
    priority_mapping_total.2.1 cfgD (some "fatal") (by decide) (by decide) (by decide)⟩,
   ⟨rfl, priority_mapping_total.2.2 faultCfg0 rfl⟩⟩

/-- C8: on the duplicate path the envelope's human-readable `identifier` is
the constant string `duplicate` (not the original ticket's key) and its `url`
is the string `https://linear.app/issue/` concatenated with the cached ticket
id (not the URL the tracker returned at creation time); only `issueId`
carries the original ticket's identity. -/
theorem duplicate_envelope_constant (host : JsHost) (cfg : Config)
    (gw : Gateway) (now : Nat) (cache cache' : Cache) (r : FaultReport)
    (ex : FaultRecord) (hd : cfg.deduplicate = true)
    (hhit : checkDuplicate cfg cache (generateFaultHash host.md5hex r) now
      = (some ex, cache')) :
    (report host cfg gw now cache r).1 =
      Except.ok
        { issueId := ex.issueId
          identifier := "duplicate"
          url := "https://linear.app/issue/" ++ ex.issueId
          isDuplicate := true } := by
  rw [report_dup_hit host cfg gw now cache cache' r ex hd hhit]

theorem duplicate_envelope_constant_witness :
    cfgD.deduplicate = true ∧
    checkDuplicate cfgD cache0 (generateFaultHash host0.md5hex rep0) 100
      = (some rec0, cache0) ∧
    (report host0 cfgD gwOk 100 cache0 rep0).1 =
      Except.ok
        { issueId := "ISS-1"
          identifier := "duplicate"
          url := "https://linear.app/issue/ISS-1"
          isDuplicate := true } :=
  ⟨rfl, by decide,
    duplicate_envelope_constant host0 cfgD gwOk 100 cache0 cache0 rep0 rec0 rfl
      (by decide)⟩

/-- C4: on the duplicate path, even when the comment-append call to the
tracker rejects, `report` still resolves successfully with `isDuplicate=true`
and the existing ticket identity, and the cache record has been updated
(count incremented, `lastSeen = now`); the comment failure never reaches the
caller. -/
theorem duplicate_comment_failure_isolated (host : JsHost) (cfg : Config)
    (gw : Gateway) (now : Nat) (cache : Cache) (r : FaultReport)
    (ex : FaultRecord) (e : String) (hd : cfg.deduplicate = true)
    (hget : mapGet cache (generateFaultHash host.md5hex r) = some ex)
    (hlive : now - ex.lastSeen ≤ cfg.dedupeWindow)
    (_hfail : gw.createComment ex.issueId (commentBody host (ex.count + 1))
      = Except.error e) :
    report host cfg gw now cache r =
      (Except.ok
        { issueId := ex.issueId
          identifier := "duplicate"
          url := "https://linear.app/issue/" ++ ex.issueId
          isDuplicate := true },
       mapSet cache (generateFaultHash host.md5hex r)
         { ex with count := ex.count + 1, lastSeen := now }) ∧
    mapGet (report host cfg gw now cache r).2 (generateFaultHash host.md5hex r)
      = some { ex with count := ex.count + 1, lastSeen := now } := by
  have hhit :=
    checkDuplicate_live cfg cache (generateFaultHash host.md5hex r) now ex hget hlive
  have h1 := report_dup_hit host cfg gw now cache cache r ex hd hhit
  refine ⟨h1, ?_⟩
  rw [h1]
  exact mapGet_mapSet_self cache (generateFaultHash host.md5hex r) _

theorem duplicate_comment_failure_isolated_witness :
    gwCommentFail.createComment rec0.issueId (commentBody host0 (rec0.count + 1))
      = Except.error "comment failed" ∧
    (report host0 cfgD gwCommentFail 100 cache0 rep0).1 =
      Except.ok
        { issueId := "ISS-1"
          identifier := "duplicate"
          url := "https://linear.app/issue/ISS-1"
          isDuplicate := true } ∧
    mapGet (report host0 cfgD gwCommentFail 100 cache0 rep0).2
        (generateFaultHash host0.md5hex rep0)
      = some { hash := "boom:Error: boom", issueId := "ISS-1", count := 2, lastSeen := 100 } := by
  have h := duplicate_comment_failure_isolated host0 cfgD gwCommentFail 100 cache0
    rep0 rec0 "comment failed" rfl rfl (by decide) rfl
  exact ⟨rfl, by rw [h.1]; rfl, h.2⟩

/-- C9: even with deduplication disabled, every successful fresh-path report
inserts (or overwrites) a cache record for the report's fingerprint with
`count = 1` and `lastSeen = now`: the flag guards only the lookup, not the
insert. -/
theorem insert_regardless_of_flag (host : JsHost) (cfg : Config) (gw : Gateway)
    (now : Nat) (cache : Cache) (r : FaultReport) (created : CreatedIssue)
    (hd : cfg.deduplicate = false)
    (hc : gw.createIssue (buildIssueInput host cfg r) = Except.ok (some created)) :
    (report host cfg gw now cache r).1 =
      Except.ok
        { issueId := created.id
          identifier := created.identifier
          url := created.url
          isDuplicate := false } ∧
    mapGet (report host cfg gw now cache r).2 (generateFaultHash host.md5hex r)
      = some { hash := generateFaultHash host.md5hex r, issueId := created.id,
               count := 1, lastSeen := now } := by
  have h1 := report_no_dedup host cfg gw now cache r hd
  have h2 := createFresh_ok host cfg gw now cache r
    (generateFaultHash host.md5hex r) created hc
  rw [h1, h2]
  exact ⟨rfl, mapGet_mapSet_self cache _ _⟩

theorem insert_regardless_of_flag_witness :
    cfgN.deduplicate = false ∧
    gwOk.createIssue (buildIssueInput host0 cfgN rep0) = Except.ok (some issue1) ∧
    mapGet (report host0 cfgN gwOk 5 cache0 rep0).2
        (generateFaultHash host0.md5hex rep0)
      = some { hash := "boom:Error: boom", issueId := "NEW-1", count := 1, lastSeen := 5 } := by
  have h := insert_regardless_of_flag host0 cfgN gwOk 5 cache0 rep0 issue1 rfl rfl
  exact ⟨rfl, rfl, h.2⟩

theorem mapGet_createFresh_snd_ne (host : JsHost) (cfg : Config) (gw : Gateway)
    (now : Nat) (cache : Cache) (r : FaultReport) (hash k : String)
    (hk : k ≠ hash) :
    mapGet (createFresh host cfg gw now cache r hash).2 k = mapGet cache k := by
  unfold createFresh
  cases gw.createIssue (buildIssueInput host cfg r) with
  | error e => rfl
  | ok o =>
      cases o with
      | none => rfl
      | some created => exact mapGet_mapSet_ne cache hash k _ hk

/-- C1: with deduplication enabled, submitting two reports with the same
fingerprint within the TTL window yields a first result with
`isDuplicate = false` and a second result with `isDuplicate = true` whose
`issueId` equals the ticket id the first call returned. -/
theorem fault_dedup_two_reports (host : JsHost) (cfg : Config)
    (gw1 gw2 : Gateway) (now1 now2 : Nat) (r1 r2 : FaultReport)
    (created : CreatedIssue) (cache : Cache)
    (hd : cfg.deduplicate = true)
    (hhash : generateFaultHash host.md5hex r2 = generateFaultHash host.md5hex r1)
    (hmiss : mapGet cache (generateFaultHash host.md5hex r1) = none)
    (hcreate : gw1.createIssue (buildIssueInput host cfg r1)
      = Except.ok (some created))
    (hwin : now2 - now1 ≤ cfg.dedupeWindow) :
    (report host cfg gw1 now1 cache r1).1 =
      Except.ok
        { issueId := created.id
          identifier := created.identifier
          url := created.url
          isDuplicate := false } ∧
    ∃ env2 : ReportResult,
      (report host cfg gw2 now2 (report host cfg gw1 now1 cache r1).2 r2).1
        = Except.ok env2 ∧ env2.isDuplicate = true ∧ env2.issueId = created.id := by
  have hchk := checkDuplicate_of_get_none cfg cache
    (generateFaultHash host.md5hex r1) now1 hmiss
  have h1 := report_dup_miss host cfg gw1 now1 cache cache r1 hd hchk
  have h2 := createFresh_ok host cfg gw1 now1 cache r1
    (generateFaultHash host.md5hex r1) created hcreate
  have hrep1 := h1.trans h2
  have hget2 : mapGet (report host cfg gw1 now1 cache r1).2
      (generateFaultHash host.md5hex r2)
      = some { hash := generateFaultHash host.md5hex r1, issueId := created.id,
               count := 1, lastSeen := now1 } := by
    rw [hrep1, hhash]
    exact mapGet_mapSet_self cache _ _
  have hchk2 := checkDuplicate_live cfg (report host cfg gw1 now1 cache r1).2
    (generateFaultHash host.md5hex r2) now2 _ hget2 hwin
  have h3 := report_dup_hit host cfg gw2 now2 (report host cfg gw1 now1 cache r1).2
    (report host cfg gw1 now1 cache r1).2 r2 _ hd hchk2
  exact ⟨by rw [hrep1],
    ⟨{ issueId := created.id, identifier := "duplicate",
       url := "https://linear.app/issue/" ++ created.id, isDuplicate := true },
     by rw [h3], rfl, rfl⟩⟩

theorem fault_dedup_two_reports_witness :
    cfgD.deduplicate = true ∧
    mapGet ([] : Cache) (generateFaultHash host0.md5hex rep0) = none ∧
    (report host0 cfgD gwOk 10 ([] : Cache) rep0).1 =
      Except.ok
        { issueId := "NEW-1", identifier := "APP-1",
          url := "https://linear.app/issue/NEW-1", isDuplicate := false } ∧
    ∃ env2 : ReportResult,
      (report host0 cfgD gwOk 20 (report host0 cfgD gwOk 10 ([] : Cache) rep0).2 rep1).1
        = Except.ok env2 ∧ env2.isDuplicate = true ∧ env2.issueId = "NEW-1" := by
  have h := fault_dedup_two_reports host0 cfgD gwOk gwOk 10 20 rep0 rep1 issue1
    ([] : Cache) rfl (by decide) rfl rfl (by decide)
  exact ⟨rfl, rfl, h.1, h.2⟩

/-- C3: a successful cache lookup only ever returns a record with
`now - lastSeen ≤ TTL` (and leaves the cache untouched); a stored record past
the TTL is evicted by the lookup, which then reports not-found, so
resubmitting the same fingerprint after the window produces a fresh
`isDuplicate = false` result with a new, independent ticket; and the lookup
is the only operation of `report` that removes entries — every other key is
left exactly as it was. -/
theorem cache_ttl_invariant :
    (∀ (cfg : Config) (cache : Cache) (hash : String) (now : Nat)
       (rec : FaultRecord) (c' : Cache),
       checkDuplicate cfg cache hash now = (some rec, c') →
       now - rec.lastSeen ≤ cfg.dedupeWindow ∧ c' = cache) ∧
    (∀ (cfg : Config) (cache : Cache) (hash : String) (now : Nat)
       (rec : FaultRecord),
       mapGet cache hash = some rec → now - rec.lastSeen > cfg.dedupeWindow →
       checkDuplicate cfg cache hash now = (none, mapDelete cache hash)) ∧
    (∀ (host : JsHost) (cfg : Config) (gw : Gateway) (now : Nat) (cache : Cache)
       (r : FaultReport) (rec : FaultRecord) (created : CreatedIssue),
       cfg.deduplicate = true →
       mapGet cache (generateFaultHash host.md5hex r) = some rec →
       now - rec.lastSeen > cfg.dedupeWindow →
       gw.createIssue (buildIssueInput host cfg r) = Except.ok (some created) →
       (report host cfg gw now cache r).1 =
         Except.ok
           { issueId := created.id, identifier := created.identifier,
             url := created.url, isDuplicate := false }) ∧
    (∀ (host : JsHost) (cfg : Config) (gw : Gateway) (now : Nat) (cache : Cache)
       (r : FaultReport) (k : String),
       k ≠ generateFaultHash host.md5hex r →
       mapGet (report host cfg gw now cache r).2 k = mapGet cache k) := by
  refine ⟨?_, ?_, ?_, ?_⟩
  · intro cfg cache hash now rec c' h
    cases hg : mapGet cache hash with
    | none =>
        rw [checkDuplicate_of_get_none cfg cache hash now hg] at h
        simp at h
    | some rec0 =>
        by_cases hs : now - rec0.lastSeen > cfg.dedupeWindow
        · rw [checkDuplicate_stale cfg cache hash now rec0 hg hs] at h
          simp at h
        · rw [checkDuplicate_live cfg cache hash now rec0 hg (by omega)] at h
          simp only [Prod.mk.injEq, Option.some.injEq] at h
          obtain ⟨rfl, rfl⟩ := h
          exact ⟨by omega, rfl⟩
  · intro cfg cache hash now rec hg hs
    exact checkDuplicate_stale cfg cache hash now rec hg hs
  · intro host cfg gw now cache r rec created hd hget hstale hcreate
    have hchk := checkDuplicate_stale cfg cache
      (generateFaultHash host.md5hex r) now rec hget hstale
    have h1 := report_dup_miss host cfg gw now cache
      (mapDelete cache (generateFaultHash host.md5hex r)) r hd hchk
    have h2 := createFresh_ok host cfg gw now
      (mapDelete cache (generateFaultHash host.md5hex r)) r
      (generateFaultHash host.md5hex r) created hcreate
    rw [h1, h2]
  · intro host cfg gw now cache r k hk
    by_cases hd : cfg.deduplicate = true
    · cases hchk : checkDuplicate cfg cache (generateFaultHash host.md5hex r) now with
      | mk o c2 =>
          have hc2 : mapGet c2 k = mapGet cache k := by
            have hh := mapGet_checkDuplicate_snd_ne cfg cache
              (generateFaultHash host.md5hex r) now k hk
            rwa [hchk] at hh
          cases o with
          | some ex =>
              have hsnd : (report host cfg gw now cache r).2
                  = mapSet c2 (generateFaultHash host.md5hex r)
                      { ex with count := ex.count + 1, lastSeen := now } := by
                rw [report_dup_hit host cfg gw now cache c2 r ex hd hchk]
              rw [hsnd, mapGet_mapSet_ne c2 (generateFaultHash host.md5hex r) k _ hk]
              exact hc2
          | none =>
              rw [report_dup_miss host cfg gw now cache c2 r hd hchk]
              rw [mapGet_createFresh_snd_ne host cfg gw now c2 r
                (generateFaultHash host.md5hex r) k hk]
              exact hc2
    · have hd' : cfg.deduplicate = false := by
        cases hcd : cfg.deduplicate
        · rfl
        · exact absurd hcd hd
      rw [report_no_dedup host cfg gw now cache r hd']
      exact mapGet_createFresh_snd_ne host cfg gw now cache r
        (generateFaultHash host.md5hex r) k hk

theorem cache_ttl_invariant_witness :
    mapGet cache0 (generateFaultHash host0.md5hex rep0) = some rec0 ∧
    100000 - rec0.lastSeen > cfgD.dedupeWindow ∧
    (report host0 cfgD gwOk 100000 cache0 rep0).1 =
      Except.ok
        { issueId := "NEW-1", identifier := "APP-1",
          url := "https://linear.app/issue/NEW-1", isDuplicate := false } :=
  ⟨rfl, by decide,
    cache_ttl_invariant.2.2.1 host0 cfgD gwOk 100000 cache0 rep0 rec0 issue1
      rfl rfl (by decide) rfl⟩

/-- C7: with deduplication disabled, every submission in a sequence of
reports sharing one fingerprint (each creation succeeding) resolves with
`isDuplicate = false`, and the results do not depend on the cache contents at
all — the duplicate check is never consulted. -/
theorem disabled_dedup_all_fresh (host : JsHost) (cfg : Config) (fp : String)
    (events : List (Gateway × Nat × FaultReport)) (cache : Cache)
    (hd : cfg.deduplicate = false)
    (_hfp : ∀ e ∈ events, generateFaultHash host.md5hex e.2.2 = fp)
    (hgw : ∀ e ∈ events, ∀ inp, ∃ cr, e.1.createIssue inp = Except.ok (some cr)) :
    (∀ res ∈ (runReports host cfg events cache).1,
      ∃ env : ReportResult, res = Except.ok env ∧ env.isDuplicate = false) ∧
    (∀ cache' : Cache,
      (runReports host cfg events cache).1 = (runReports host cfg events cache').1) :=
  ⟨runReports_all_fresh host cfg events cache hd hgw,
   fun cache' => runReports_fst_no_dedup_cache_indep host cfg events cache cache' hd⟩

theorem disabled_dedup_all_fresh_witness :
    cfgN.deduplicate = false ∧
    ∀ res ∈ (runReports host0 cfgN [(gwOk, 10, rep0), (gwOk, 20, rep0)] ([] : Cache)).1,
      ∃ env : ReportResult, res = Except.ok env ∧ env.isDuplicate = false := by
  refine ⟨rfl, (disabled_dedup_all_fresh host0 cfgN "boom:Error: boom"
    [(gwOk, 10, rep0), (gwOk, 20, rep0)] ([] : Cache) rfl ?_ ?_).1⟩
  · intro e he
    simp only [List.mem_cons, List.not_mem_nil, or_false] at he
    rcases he with rfl | rfl <;> decide
  · intro e he inp
    have hgw : e.1 = gwOk := by
      simp only [List.mem_cons, List.not_mem_nil, or_false] at he
      rcases he with rfl | rfl <;> rfl
    rw [hgw]
    exact ⟨issue1, rfl⟩

/-- C5 counterexample: with deduplication on, a stale record for the
fingerprint in the cache, and a failing creation, `report` propagates the
error but the cache is NOT left unchanged — the duplicate check already
evicted the expired record before the fresh path ran. -/
theorem fresh_failure_cache_changed_cex :
    (report host0 cfgD gwDown 100000 cache0 rep0).1 = Except.error "network down" ∧
    (report host0 cfgD gwDown 100000 cache0 rep0).2 ≠ cache0 := by
  exact ⟨rfl, by decide⟩

/-- C5 (amended): on the fresh-ticket path, if creation fails or reports no
created entity, `report` propagates a single error and inserts no record: the
cache afterwards is the pre-call cache, except that the duplicate check may
already have lazily evicted an expired record for this fingerprint. -/
theorem fresh_failure_no_insert (host : JsHost) (cfg : Config) (gw : Gateway)
    (now : Nat) (cache : Cache) (r : FaultReport)
    (hfresh : cfg.deduplicate = false ∨
      (checkDuplicate cfg cache (generateFaultHash host.md5hex r) now).1 = none)
    (hfail : (∃ e, gw.createIssue (buildIssueInput host cfg r) = Except.error e) ∨
      gw.createIssue (buildIssueInput host cfg r) = Except.ok none) :
    (∃ e, (report host cfg gw now cache r).1 = Except.error e) ∧
    ((report host cfg gw now cache r).2 = cache ∨
     (report host cfg gw now cache r).2
       = mapDelete cache (generateFaultHash host.md5hex r)) := by
  have hfreshRes : ∀ cache1 : Cache,
      (∃ e, (createFresh host cfg gw now cache1 r
        (generateFaultHash host.md5hex r)).1 = Except.error e) ∧
      (createFresh host cfg gw now cache1 r
        (generateFaultHash host.md5hex r)).2 = cache1 := by
    intro cache1
    rcases hfail with ⟨e, he⟩ | he
    · rw [createFresh_err host cfg gw now cache1 r _ e he]
      exact ⟨⟨e, rfl⟩, rfl⟩
    · rw [createFresh_none host cfg gw now cache1 r _ he]
      exact ⟨⟨"Issue creation returned no issue", rfl⟩, rfl⟩
  by_cases hd : cfg.deduplicate = true
  · have hn : (checkDuplicate cfg cache (generateFaultHash host.md5hex r) now).1
        = none := by
      rcases hfresh with hf | hf
      · rw [hf] at hd
        exact Bool.noConfusion hd
      · exact hf
    cases hchk : checkDuplicate cfg cache (generateFaultHash host.md5hex r) now with
    | mk o c2 =>
        have ho : o = none := by
          rw [hchk] at hn
          exact hn
        subst ho
        rw [report_dup_miss host cfg gw now cache c2 r hd hchk]
        obtain ⟨he, hc⟩ := hfreshRes c2
        refine ⟨he, ?_⟩
        rw [hc]
        rcases checkDuplicate_snd_cases cfg cache
          (generateFaultHash host.md5hex r) now with h | h
        · left
          rw [hchk] at h
          exact h
        · right
          rw [hchk] at h
          exact h
  · have hd' : cfg.deduplicate = false := by
      cases hcd : cfg.deduplicate
      · rfl
      · exact absurd hcd hd
    rw [report_no_dedup host cfg gw now cache r hd']
    obtain ⟨he, hc⟩ := hfreshRes cache
    exact ⟨he, Or.inl hc⟩

theorem fresh_failure_no_insert_witness :
    cfgN.deduplicate = false ∧
    gwDown.createIssue (buildIssueInput host0 cfgN rep0)
      = Except.error "network down" ∧
    (∃ e, (report host0 cfgN gwDown 7 cache0 rep0).1 = Except.error e) ∧
    ((report host0 cfgN gwDown 7 cache0 rep0).2 = cache0 ∨
     (report host0 cfgN gwDown 7 cache0 rep0).2
       = mapDelete cache0 (generateFaultHash host0.md5hex rep0)) := by
  have h := fresh_failure_no_insert host0 cfgN gwDown 7 cache0 rep0 (Or.inl rfl)
    (Or.inl ⟨"network down", rfl⟩)
  exact ⟨rfl, rfl, h.1, h.2⟩

/-- C10 counterexample: the empty-string signature has byte length 0 ≠ 64,
and `verifySignature` on it does throw — but `process` does not reject the
payload: the truthiness guard `if (signature && ...)` treats `''` as falsy
and skips verification entirely, answering success (HTTP 200 in the
middleware), contradicting the claim that every wrong-length signature leads
to a rejection. -/
theorem verify_length_mismatch_cex :
    (utf8Bytes (hmac0 "secret" "payload-json")).length = 64 ∧
    (utf8Bytes "").length ≠ 64 ∧
    (∃ e, verifySignature hmac0 (some "secret") "payload-json" ""
      = Except.error e) ∧
    process hmac0 (some "secret") payload0 "payload-json" (some "")
      = Except.ok
        { type := "Issue", action := "create",
          timestamp := "2025-01-01T00:00:00.000Z", organizationId := "org-1" } ∧
    middlewareStatus
      (process hmac0 (some "secret") payload0 "payload-json" (some "")) = 200 := by
  exact ⟨by decide, by decide,
    ⟨"Input buffers must have the same byte length", rfl⟩, rfl, rfl⟩

/-- C10 (amended): with a signing secret configured, `verifySignature` throws
(never returns a boolean) whenever the provided signature's byte length
differs from the 64-byte hex HMAC digest's; consequently, for any NON-empty
such signature, `process` rejects the payload with that exception, which is
not the recognizable `Invalid webhook signature` condition (the middleware
answers 500, not 401).  An empty-string signature is falsy and skips
verification entirely (see the counterexample). -/
theorem verify_length_mismatch_throws (hmacHex : String → String → String)
    (secret payloadJson sig : String) (payload : WebhookPayload)
    (hdig : (utf8Bytes (hmacHex secret payloadJson)).length = 64)
    (hlen : (utf8Bytes sig).length ≠ 64)
    (hne : sig ≠ "") :
    verifySignature hmacHex (some secret) payloadJson sig
      = Except.error "Input buffers must have the same byte length" ∧
    (∀ b : Bool, verifySignature hmacHex (some secret) payloadJson sig
      ≠ Except.ok b) ∧
    process hmacHex (some secret) payload payloadJson (some sig)
      = Except.error "Input buffers must have the same byte length" ∧
    "Input buffers must have the same byte length" ≠ "Invalid webhook signature" ∧
    middlewareStatus
      (process hmacHex (some secret) payload payloadJson (some sig)) = 500 := by
  have hv : verifySignature hmacHex (some secret) payloadJson sig
      = Except.error "Input buffers must have the same byte length" := by
    show timingSafeEqual (utf8Bytes sig) (utf8Bytes (hmacHex secret payloadJson))
      = Except.error "Input buffers must have the same byte length"
    unfold timingSafeEqual
    rw [hdig, if_neg hlen]
  have hp : process hmacHex (some secret) payload payloadJson (some sig)
      = Except.error "Input buffers must have the same byte length" := by
    simp only [process]
    rw [if_neg hne, hv]
  refine ⟨hv, fun b h => ?_, hp, by decide, by rw [hp]; decide⟩
  rw [hv] at h
  exact Except.noConfusion h

theorem verify_length_mismatch_throws_witness :
    (utf8Bytes (hmac0 "secret" "payload-json")).length = 64 ∧
    (utf8Bytes "abc").length ≠ 64 ∧
    ("abc" : String) ≠ "" ∧
    process hmac0 (some "secret") payload0 "payload-json" (some "abc")
      = Except.error "Input buffers must have the same byte length" ∧
    middlewareStatus
      (process hmac0 (some "secret") payload0 "payload-json" (some "abc")) = 500 := by
  have h := verify_length_mismatch_throws hmac0 "secret" "payload-json" "abc"
    payload0 (by decide) (by decide) (by decide)
  exact ⟨by decide, by decide, by decide, h.2.2.1, h.2.2.2.2⟩
